import Mathlib

/-!
Verification of the Asterisk-Globe layer/geometry engine.

The development shallowly embeds two source modules:

* the globe geometry utilities (`latLngToVector3`, `vector3ToLatLng`,
  `createArcCurve`, `getIntermediatePoints`, the animation helper functions
  `createGlowAnimation` and `createExplosionAnimation`), and
* the `PlotManager` layer registry (`addLayer`, `removeLayer`,
  `removeLayersByType`, `updateLayerData`, `updateLayerOptions`,
  `clearAllLayers`, `processEventBatch`, `generateLayerId`).

JavaScript numbers are modelled as real numbers.  The one place where the
source can produce non-finite values (division by zero inside
`getIntermediatePoints`) uses `Option ℝ` scalars, `none` standing for the
non-finite results (NaN / ±Infinity) of a JavaScript division by zero.
JavaScript `Map` objects are modelled as insertion-ordered association lists
whose `set` replaces in place, and `Date.now()` is passed in explicitly as an
integer clock value.
-/

open Classical

noncomputable section

/-! ### Geometry utilities (globe configuration and projection) -/

/-- `GLOBE_CONFIG.radius` from the source configuration object. -/
def GLOBE_RADIUS : ℝ := 5

/-- A THREE.Vector3. -/
structure Vec3 where
  x : ℝ
  y : ℝ
  z : ℝ

/-- Componentwise vector addition (`Vector3.add`). -/
def Vec3.add (a b : Vec3) : Vec3 :=
  ⟨a.x + b.x, a.y + b.y, a.z + b.z⟩

/-- `Vector3.multiplyScalar`. -/
def Vec3.scale (s : ℝ) (a : Vec3) : Vec3 :=
  ⟨s * a.x, s * a.y, s * a.z⟩

/-- `Vector3.length`. -/
def Vec3.len (a : Vec3) : ℝ :=
  Real.sqrt (a.x ^ 2 + a.y ^ 2 + a.z ^ 2)

/-- `Vector3.normalize`; THREE divides by `length || 1`, so the zero vector is
returned unchanged. -/
def Vec3.normalize (a : Vec3) : Vec3 :=
  if a.len = 0 then a else ⟨a.x / a.len, a.y / a.len, a.z / a.len⟩

/-- `Math.atan2 y x`, modelled as the argument of the complex number
`x + y·i` (range `(-π, π]`, `atan2 0 0 = 0`). -/
def atan2 (y x : ℝ) : ℝ :=
  Complex.arg ⟨x, y⟩

/-- A `{lat, lng}` record as used by the globe utilities. -/
structure LatLng where
  lat : ℝ
  lng : ℝ

/-- `latLngToVector3(lat, lng, radius)` from the source (default radius is
`GLOBE_RADIUS`, passed explicitly here). -/
def latLngToVector3 (lat lng radius : ℝ) : Vec3 :=
  let phi := (90 - lat) * (Real.pi / 180)
  let theta := (lng + 180) * (Real.pi / 180)
  { x := -(radius * Real.sin phi * Real.cos theta)
    y := radius * Real.cos phi
    z := radius * Real.sin phi * Real.sin theta }

/-- `vector3ToLatLng(vector, radius)` from the source: normalize, scale back to
`radius`, then invert the trigonometric relations.  `Math.acos` is modelled by
`Real.arccos` (identical on `[-1, 1]`, the only arguments produced here). -/
def vector3ToLatLng (v : Vec3) (radius : ℝ) : LatLng :=
  let n := Vec3.scale radius v.normalize
  { lat := 90 - Real.arccos (n.y / radius) * 180 / Real.pi
    lng := atan2 n.z (-n.x) * 180 / Real.pi - 180 }

/-- A THREE.QuadraticBezierCurve3: three control points. -/
structure QuadraticBezierCurve3 where
  v0 : Vec3
  v1 : Vec3
  v2 : Vec3

/-- `QuadraticBezierCurve3.getPoint t`: the standard quadratic Bézier
`(1-t)²·v0 + 2(1-t)t·v1 + t²·v2`, componentwise. -/
def QuadraticBezierCurve3.getPoint (c : QuadraticBezierCurve3) (t : ℝ) : Vec3 :=
  (Vec3.scale ((1 - t) ^ 2) c.v0).add
    ((Vec3.scale (2 * (1 - t) * t) c.v1).add (Vec3.scale (t ^ 2) c.v2))

/-- `createArcCurve(startLatLng, endLatLng, arcHeight)` from the source
(default arcHeight is 2, passed explicitly here): project both endpoints at
`GLOBE_RADIUS`, lift the midpoint to `GLOBE_RADIUS + arcHeight`, and build the
quadratic Bézier curve. -/
def createArcCurve (startLatLng endLatLng : LatLng) (arcHeight : ℝ) :
    QuadraticBezierCurve3 :=
  let startVector := latLngToVector3 startLatLng.lat startLatLng.lng GLOBE_RADIUS
  let endVector := latLngToVector3 endLatLng.lat endLatLng.lng GLOBE_RADIUS
  let midVector := Vec3.scale 0.5 (startVector.add endVector)
  let liftedMid := Vec3.scale (GLOBE_RADIUS + arcHeight) midVector.normalize
  { v0 := startVector, v1 := liftedMid, v2 := endVector }

/-! ### Great-circle interpolation (geocoding utilities) -/

/-- `validation.isValidCoordinate` from `apiService.js` (the `typeof` checks
are vacuous for real numbers). -/
def isValidCoordinate (lat lng : ℝ) : Prop :=
  -90 ≤ lat ∧ lat ≤ 90 ∧ -180 ≤ lng ∧ lng ≤ 180

/-- A `{latitude, longitude}` record as used by the geocoding utilities. -/
structure Coordinate where
  latitude : ℝ
  longitude : ℝ

/-- JavaScript division: `none` stands for the non-finite result (NaN or
±Infinity) of dividing by zero. -/
def jsDiv : Option ℝ → Option ℝ → Option ℝ
  | some a, some b => if b = 0 then none else some (a / b)
  | _, _ => none

/-- A point produced by `getIntermediatePoints`; its coordinates can be
NaN-contaminated, hence `Option ℝ`. -/
structure JsPoint where
  latitude : Option ℝ
  longitude : Option ℝ

/-- `getIntermediatePoints(start, end, numPoints)` from the source: validate,
compute the angular distance `d`, then slerp.  The interpolation weights
`a = sin((1-f)·d)/sin(d)` and `b = sin(f·d)/sin(d)` divide by `sin(d)` with no
guard; NaN contamination from a zero divisor is propagated through the
`Option ℝ` scalars. -/
def getIntermediatePoints (start finish : Coordinate) (numPoints : ℕ) :
    Except String (List JsPoint) :=
  if ¬ isValidCoordinate start.latitude start.longitude ∨
      ¬ isValidCoordinate finish.latitude finish.longitude then
    Except.error ("Invalid coordinates provided")
  else
    let lat1 := start.latitude * Real.pi / 180
    let lng1 := start.longitude * Real.pi / 180
    let lat2 := finish.latitude * Real.pi / 180
    let lng2 := finish.longitude * Real.pi / 180
    let d := 2 * Real.arcsin (Real.sqrt
      (Real.sin ((lat1 - lat2) / 2) ^ 2 +
        Real.cos lat1 * Real.cos lat2 * Real.sin ((lng1 - lng2) / 2) ^ 2))
    Except.ok ((List.range (numPoints + 1)).map (fun i =>
      let f := jsDiv (some (i : ℝ)) (some (numPoints : ℝ))
      let a := jsDiv (f.map (fun f => Real.sin ((1 - f) * d))) (some (Real.sin d))
      let b := jsDiv (f.map (fun f => Real.sin (f * d))) (some (Real.sin d))
      let px := do
        let av ← a
        let bv ← b
        pure (av * Real.cos lat1 * Real.cos lng1 + bv * Real.cos lat2 * Real.cos lng2)
      let py := do
        let av ← a
        let bv ← b
        pure (av * Real.cos lat1 * Real.sin lng1 + bv * Real.cos lat2 * Real.sin lng2)
      let pz := do
        let av ← a
        let bv ← b
        pure (av * Real.sin lat1 + bv * Real.sin lat2)
      let plat := do
        let xv ← px
        let yv ← py
        let zv ← pz
        pure (atan2 zv (Real.sqrt (xv * xv + yv * yv)))
      let plng := do
        let xv ← px
        let yv ← py
        pure (atan2 yv xv)
      { latitude := plat.map (fun l => l * 180 / Real.pi)
        longitude := plng.map (fun l => l * 180 / Real.pi) }))

/-! ### Animation helper functions (PlotManager module) -/

/-- `createGlowAnimation(baseOpacity, glowIntensity = 0.5, glowSpeed = 1.5)`
applied to a timestamp: the optional parameters model the JavaScript default
parameters. -/
def createGlowAnimation (baseOpacity : ℝ) (glowIntensityOpt glowSpeedOpt : Option ℝ)
    (timestamp : ℝ) : ℝ :=
  let glowIntensity := glowIntensityOpt.getD 0.5
  let glowSpeed := glowSpeedOpt.getD 1.5
  let glow := Real.sin (timestamp * 0.001 * glowSpeed) * glowIntensity + glowIntensity
  min 1 (baseOpacity + glow)

/-- Modelled from the spec: the glowing-border opacity formula as the spec
states it, `opacity(t) = min(1, baseOpacity + glowIntensity·sin(t·0.0015·glowSpeed)
+ glowIntensity)`, for comparison with `createGlowAnimation`. -/
def glowOpacitySpec (baseOpacity glowIntensity glowSpeed timestamp : ℝ) : ℝ :=
  min 1 (baseOpacity + glowIntensity * Real.sin (timestamp * 0.0015 * glowSpeed) + glowIntensity)

/-- The JavaScript `%` operator on numbers: remainder with the sign of the
dividend, `x - y·trunc(x/y)` (for `y ≠ 0`). -/
def jsMod (x y : ℝ) : ℝ :=
  x - y * (if 0 ≤ x / y then (⌊x / y⌋ : ℝ) else (⌈x / y⌉ : ℝ))

/-- `createExplosionAnimation(baseRadius, maxRadius, duration = 2000)` applied
to a timestamp: looping cubic ease-out growth from `baseRadius` to
`maxRadius`. -/
def createExplosionAnimation (baseRadius maxRadius : ℝ) (durationOpt : Option ℝ)
    (timestamp : ℝ) : ℝ :=
  let duration := durationOpt.getD 2000
  let elapsed := jsMod timestamp duration
  let progress := elapsed / duration
  let easeOut := 1 - (1 - progress) ^ 3
  baseRadius + (maxRadius - baseRadius) * easeOut

/-! ### PlotManager: layers, options, instructions -/

/-- Layer data is an opaque payload: the manager stores it and hands it to the
deck.gl layer constructors, whose position accessors are lazy closures that the
manager never invokes. -/
abbrev LayerData := ℕ

/-- The numeric option keys read by the layer generators and carried by event
instructions; a `none` field models an absent key (colour/pickable styling
keys, which no claim observes, are elided). -/
structure LayerOptions where
  baseRadius : Option ℝ
  pulseIntensity : Option ℝ
  pulseSpeed : Option ℝ
  strokeWidth : Option ℝ
  maxRadius : Option ℝ
  duration : Option ℝ

/-- The empty options object `{}`. -/
def LayerOptions.empty : LayerOptions :=
  ⟨none, none, none, none, none, none⟩

/-- JavaScript shallow merge `{ ...old, ...new }`: keys present in `new`
override. -/
def mergeOptions (old new : LayerOptions) : LayerOptions :=
  { baseRadius := new.baseRadius <|> old.baseRadius
    pulseIntensity := new.pulseIntensity <|> old.pulseIntensity
    pulseSpeed := new.pulseSpeed <|> old.pulseSpeed
    strokeWidth := new.strokeWidth <|> old.strokeWidth
    maxRadius := new.maxRadius <|> old.maxRadius
    duration := new.duration <|> old.duration }

/-- A constructed deck.gl layer.  The `ScatterplotLayer` built by
`createPulsingDotLayer` stores the resolved animation parameters of its
`getRadius` closure; the `ArcLayer` built by `createArcLayer` stores its
resolved stroke width. -/
inductive Layer where
  | scatterplot (id : String) (data : LayerData)
      (baseRadius pulseIntensity pulseSpeed : ℝ)
  | arc (id : String) (data : LayerData) (strokeWidth : ℝ)

/-- `layer.setProps({data})`. -/
def Layer.setData : Layer → LayerData → Layer
  | .scatterplot i _ b p s, d => .scatterplot i d b p s
  | .arc i _ w, d => .arc i d w

/-- The `getRadius` accessor of the pulsing-dot `ScatterplotLayer` evaluated at
a clock timestamp:
`baseRadius * (1 + pulseIntensity * sin(timestamp * 0.002 * pulseSpeed))`.
The arc layer has no radius accessor; `0` is a placeholder for it. -/
def Layer.getRadius : Layer → ℝ → ℝ
  | .scatterplot _ _ baseRadius pulseIntensity pulseSpeed, timestamp =>
      baseRadius * (1 + pulseIntensity * Real.sin (timestamp * 0.002 * pulseSpeed))
  | .arc _ _ _, _ => 0

/-- `LayerGenerators.createPulsingDotLayer(id, data, options)`: destructuring
defaults `baseRadius = 10000`, `pulseIntensity = 0.3`, `pulseSpeed = 2`. -/
def createPulsingDotLayer (id : String) (data : LayerData) (options : LayerOptions) :
    Layer :=
  let baseRadius := options.baseRadius.getD 10000
  let pulseIntensity := options.pulseIntensity.getD 0.3
  let pulseSpeed := options.pulseSpeed.getD 2
  Layer.scatterplot ("pulsing-dot-" ++ id) data baseRadius pulseIntensity pulseSpeed

/-- `LayerGenerators.createArcLayer(id, data, options)`: destructuring default
`strokeWidth = 4`. -/
def createArcLayer (id : String) (data : LayerData) (options : LayerOptions) : Layer :=
  let strokeWidth := options.strokeWidth.getD 4
  Layer.arc ("arc-" ++ id) data strokeWidth

/-- An event instruction handed to `addLayer` / `processEventBatch`. -/
structure EventInstruction where
  type : String
  data : LayerData
  options : LayerOptions
  id : Option String

/-- The record stored in the `layers` map for each created layer. -/
structure LayerRecord where
  layer : Layer
  type : String
  data : LayerData
  options : LayerOptions
  createdAt : ℤ

/-- The `PlotManager` state: the `layers` Map (insertion-ordered association
list) and the id counter.  The animation-frame bookkeeping fields
(`animationFrameId`, `lastTimestamp`, `timestamp`) only drive the host's
render loop and are not modelled. -/
structure PlotManager where
  layers : List (String × LayerRecord)
  layerCounter : ℕ

/-- `new PlotManager()`. -/
def initialPlotManager : PlotManager :=
  { layers := [], layerCounter := 0 }

/-- `Map.get`. -/
def mapGet (m : List (String × LayerRecord)) (k : String) : Option LayerRecord :=
  (m.find? (fun p => p.1 = k)).map (fun p => p.2)

/-- `Map.set`: replaces the value in place if the key is present, otherwise
appends (JavaScript Maps preserve insertion order). -/
def mapSet (m : List (String × LayerRecord)) (k : String) (v : LayerRecord) :
    List (String × LayerRecord) :=
  if m.any (fun p => p.1 = k) then
    m.map (fun p => if p.1 = k then (k, v) else p)
  else
    m ++ [(k, v)]

/-- `Map.delete`: removes the key, reporting whether it was present. -/
def mapDelete (m : List (String × LayerRecord)) (k : String) :
    List (String × LayerRecord) × Bool :=
  (m.filter (fun p => ¬ p.1 = k), m.any (fun p => p.1 = k))

/-- JavaScript number-to-string conversion for naturals (decimal, no sign, no
leading zeros), as performed by the template literal in `generateLayerId`. -/
def natToString (n : ℕ) : String :=
  if n = 0 then "0" else ⟨((Nat.digits 10 n).map Nat.digitChar).reverse⟩

/-- `generateLayerId(type)` evaluated after `++this.layerCounter` produced
`counter`: the template literal `type-counter`. -/
def generateLayerId (type : String) (counter : ℕ) : String :=
  type ++ "-" ++ natToString counter

/-- `addLayer(eventInstruction)`; `now` is `Date.now()`.  Returns the new
state together with `ok (some id)` on success, `ok none` for an unknown type
(the `default` branch warns and returns `null`), and `error` for the thrown
`TypeError` when the switch dispatches to a `LayerGenerators` method that does
not exist (only `createPulsingDotLayer` and `createArcLayer` are defined in
the source).  A falsy caller id (absent or empty) makes `generateLayerId`
pre-increment the counter even when creation subsequently fails. -/
def addLayer (s : PlotManager) (instr : EventInstruction) (now : ℤ) :
    PlotManager × Except String (Option String) :=
  let genNeeded : Bool :=
    match instr.id with
    | none => true
    | some i => i = ""
  let counter := if genNeeded then s.layerCounter + 1 else s.layerCounter
  let layerId :=
    if genNeeded then generateLayerId instr.type counter else instr.id.getD ("")
  let layerResult : Except String (Option Layer) :=
    if instr.type = "pulsing_dot" then
      Except.ok (some (createPulsingDotLayer layerId instr.data instr.options))
    else if instr.type = "animated_arc" then
      Except.ok (some (createArcLayer layerId instr.data instr.options))
    else if instr.type = "explosion" then
      Except.error ("LayerGenerators.createExplosionLayer is not a function")
    else if instr.type = "glowing_border" then
      Except.error ("LayerGenerators.createGlowingBorderLayer is not a function")
    else if instr.type = "directional_arrow" then
      Except.error ("LayerGenerators.createDirectionalArrowLayer is not a function")
    else if instr.type = "event_marker" then
      Except.error ("LayerGenerators.createEventMarkerLayer is not a function")
    else if instr.type = "area_highlight" then
      Except.error ("LayerGenerators.createAreaHighlightLayer is not a function")
    else
      Except.ok none
  match layerResult with
  | Except.error e => ({ s with layerCounter := counter }, Except.error e)
  | Except.ok none => ({ s with layerCounter := counter }, Except.ok none)
  | Except.ok (some layer) =>
      let record : LayerRecord :=
        { layer := layer, type := instr.type, data := instr.data,
          options := instr.options, createdAt := now }
      ({ layers := mapSet s.layers layerId record, layerCounter := counter },
       Except.ok (some layerId))

/-- `removeLayer(layerId)`. -/
def removeLayer (s : PlotManager) (layerId : String) : PlotManager × Bool :=
  let d := mapDelete s.layers layerId
  ({ s with layers := d.1 }, d.2)

/-- `removeLayersByType(type)`: removes every layer of the given type and
returns how many were removed. -/
def removeLayersByType (s : PlotManager) (type : String) : PlotManager × ℕ :=
  let toRemove := (s.layers.filter (fun p => p.2.type = type)).map (fun p => p.1)
  ({ s with layers := s.layers.filter (fun p => ¬ p.2.type = type) }, toRemove.length)

/-- `updateLayerData(layerId, newData)`: mutates the stored record's `data` and
the layer's `data` prop in place; `false` when the id is unknown. -/
def updateLayerData (s : PlotManager) (layerId : String) (newData : LayerData) :
    PlotManager × Bool :=
  match mapGet s.layers layerId with
  | some info =>
      let record : LayerRecord :=
        { info with data := newData, layer := info.layer.setData newData }
      ({ s with layers := mapSet s.layers layerId record }, true)
  | none => (s, false)

/-- `updateLayerOptions(layerId, newOptions)`: shallow-merges the options into
the stored record, then re-creates the layer through `addLayer` with the same
id (which stores a fresh record with `createdAt = Date.now()`); returns `true`
whenever the id was found.  An exception thrown by the inner `addLayer`
propagates. -/
def updateLayerOptions (s : PlotManager) (layerId : String) (newOptions : LayerOptions)
    (now : ℤ) : PlotManager × Except String Bool :=
  match mapGet s.layers layerId with
  | some info =>
      let merged := mergeOptions info.options newOptions
      let s1 : PlotManager :=
        { s with layers := mapSet s.layers layerId { info with options := merged } }
      let r := addLayer s1
        { type := info.type, data := info.data, options := merged, id := some layerId } now
      (r.1, match r.2 with
        | Except.error e => Except.error e
        | Except.ok _ => Except.ok true)
  | none => (s, Except.ok false)

/-- `clearAllLayers()`. -/
def clearAllLayers (s : PlotManager) : PlotManager :=
  { s with layers := [] }

/-- One entry of the `processEventBatch` result array. -/
structure BatchResult where
  success : Bool
  layerId : Option String
  error : Option String
  instruction : EventInstruction

/-- The result entry recorded for one instruction inside `processEventBatch`'s
`try/catch` body: a truthy returned id is a success, a falsy one (`null` or the
empty string) records `Failed to create layer`, and a thrown error records its
message. -/
def batchResultOf (instr : EventInstruction) (r : Except String (Option String)) :
    BatchResult :=
  match r with
  | Except.ok (some lid) =>
      if lid = "" then
        { success := false, layerId := none,
          error := some ("Failed to create layer"), instruction := instr }
      else
        { success := true, layerId := some lid, error := none, instruction := instr }
  | Except.ok none =>
      { success := false, layerId := none,
        error := some ("Failed to create layer"), instruction := instr }
  | Except.error e =>
      { success := false, layerId := none, error := some e, instruction := instr }

/-- `processEventBatch(instructions)`: each instruction goes through
`addLayer` inside its own `try/catch`, and processing always continues with
the next instruction. -/
def processEventBatch (s : PlotManager) (instrs : List EventInstruction) (now : ℤ) :
    PlotManager × List BatchResult :=
  match instrs with
  | [] => (s, [])
  | instr :: rest =>
    let step1 := addLayer s instr now
    let res := batchResultOf instr step1.2
    let rest' := processEventBatch step1.1 rest now
    (rest'.1, res :: rest'.2)

/-! ### Operation traces for the id-uniqueness claim -/

/-- The ids auto-generated during one `addLayer` call on state `s`: one id
(for the pre-incremented counter) when the caller supplied no usable id,
none otherwise. -/
def addLayerGenerated (s : PlotManager) (instr : EventInstruction) : List String :=
  match instr.id with
  | none => [generateLayerId instr.type (s.layerCounter + 1)]
  | some i =>
      if i = "" then [generateLayerId instr.type (s.layerCounter + 1)] else []

/-- The ids auto-generated while `processEventBatch` folds `addLayer` over the
instruction list. -/
def batchGenerated (s : PlotManager) (instrs : List EventInstruction) (now : ℤ) :
    List String :=
  match instrs with
  | [] => []
  | instr :: rest =>
      addLayerGenerated s instr ++ batchGenerated (addLayer s instr now).1 rest now

/-- The public mutating operations of a `PlotManager`, each carrying the
`Date.now()` value observed during the call where one is read. -/
inductive PMOp where
  | add (instr : EventInstruction) (now : ℤ)
  | remove (layerId : String)
  | removeByType (type : String)
  | clearAll
  | updData (layerId : String) (newData : LayerData)
  | updOptions (layerId : String) (newOptions : LayerOptions) (now : ℤ)
  | batch (instrs : List EventInstruction) (now : ℤ)

/-- One operation applied to a state, paired with the list of ids
auto-generated during the operation. -/
def stepOp (s : PlotManager) (op : PMOp) : PlotManager × List String :=
  match op with
  | .add instr now => ((addLayer s instr now).1, addLayerGenerated s instr)
  | .remove layerId => ((removeLayer s layerId).1, [])
  | .removeByType type => ((removeLayersByType s type).1, [])
  | .clearAll => (clearAllLayers s, [])
  | .updData layerId newData => ((updateLayerData s layerId newData).1, [])
  | .updOptions layerId newOptions now =>
      ((updateLayerOptions s layerId newOptions now).1,
       (match mapGet s.layers layerId with
        | some info =>
            addLayerGenerated s
              { type := info.type, data := info.data,
                options := mergeOptions info.options newOptions, id := some layerId }
        | none => []))
  | .batch instrs now => ((processEventBatch s instrs now).1, batchGenerated s instrs now)

/-- A whole operation sequence, collecting every auto-generated id in order. -/
def runOps (s : PlotManager) (ops : List PMOp) : PlotManager × List String :=
  match ops with
  | [] => (s, [])
  | op :: rest =>
    let st := stepOp s op
    let rest' := runOps st.1 rest
    (rest'.1, st.2 ++ rest'.2)

/-- The ids in the list are `generateLayerId`-shaped with strictly increasing
counters, all in the interval `(lo, hi]` (proof apparatus for id
uniqueness). -/
def GenAsc (lo : ℕ) (ids : List String) (hi : ℕ) : Prop :=
  match ids with
  | [] => lo ≤ hi
  | id :: rest => ∃ t c, id = generateLayerId t c ∧ lo < c ∧ GenAsc c rest hi

/-! ### Concrete values for witness instances -/

/-- A layer record used by concrete witness states. -/
def witnessRecord : LayerRecord :=
  { layer := Layer.scatterplot ("pulsing-dot-a") 7 10000 0.3 2, type := "pulsing_dot",
    data := 7, options := LayerOptions.empty, createdAt := 5 }

/-- A concrete manager state holding one stored layer under key `a`. -/
def witnessState : PlotManager :=
  { layers := [(("a"), witnessRecord)], layerCounter := 1 }

/-- A malformed batch instruction (its generator is missing, so `addLayer`
throws). -/
def witnessBadInstr : EventInstruction :=
  { type := "explosion", data := 1, options := LayerOptions.empty, id := some ("e1") }

/-- A well-formed batch instruction. -/
def witnessGoodInstr : EventInstruction :=
  { type := "pulsing_dot", data := 2, options := LayerOptions.empty, id := some ("p1") }

end

/-! ### Helper lemmas -/

theorem jsMod_zero_left (y : ℝ) : jsMod 0 y = 0 := by
  simp [jsMod]

theorem jsMod_self (y : ℝ) (hy : y ≠ 0) : jsMod y y = 0 := by
  simp [jsMod, div_self hy]

theorem jsMod_eq_self_of_lt (x y : ℝ) (hx : 0 ≤ x) (hy : 0 < y) (hxy : x < y) :
    jsMod x y = x := by
  have h0 : 0 ≤ x / y := div_nonneg hx hy.le
  have h1 : x / y < 1 := (div_lt_one hy).mpr hxy
  simp [jsMod, h0, Int.floor_eq_zero_iff.mpr ⟨h0, h1⟩]

/-- C5: the claim states that a `pulsing_dot` instruction omitting its numeric
options uses default `baseRadius = 5000`, so that the radius at `t = 0` is
`5000`; in the source `createPulsingDotLayer` defaults `baseRadius` to
`10000`, and the radius at `t = 0` is `10000 ≠ 5000`. -/
theorem createPulsingDotLayer_default_counterexample :
    (createPulsingDotLayer ("1") 0 LayerOptions.empty).getRadius 0 = 10000 ∧
    (10000 : ℝ) ≠ 5000 := by
  constructor
  · simp [createPulsingDotLayer, LayerOptions.empty, Layer.getRadius]
  · norm_num

/-- C5 (amended): with all numeric options omitted the builder uses defaults
`baseRadius = 10000`, `pulseIntensity = 0.3`, `pulseSpeed = 2`; the layer's
radius at clock time `t` is `baseRadius * (1 + 0.3 * sin(t * 0.002 * 2))`, and
at `t = 0` it equals the default `baseRadius = 10000`. -/
theorem createPulsingDotLayer_defaults (id : String) (data : LayerData) (t : ℝ) :
    (createPulsingDotLayer id data LayerOptions.empty).getRadius t =
      10000 * (1 + 0.3 * Real.sin (t * 0.002 * 2)) ∧
    (createPulsingDotLayer id data LayerOptions.empty).getRadius 0 = 10000 := by
  constructor
  · simp [createPulsingDotLayer, LayerOptions.empty, Layer.getRadius]
  · simp [createPulsingDotLayer, LayerOptions.empty, Layer.getRadius]

/-- C6: the claim's opacity formula uses coefficient `0.0015`; the source's
`createGlowAnimation` uses `0.001`.  At `t = 1000π/3` (defaults
`glowIntensity = 0.5`, `glowSpeed = 1.5`, `baseOpacity = 0`) the code yields
`1` while the claimed formula yields `√2/4 + 1/2 ≠ 1`. -/
theorem createGlowAnimation_counterexample :
    createGlowAnimation 0 none none (1000 * Real.pi / 3) ≠
      glowOpacitySpec 0 0.5 1.5 (1000 * Real.pi / 3) := by
  have hs2 : Real.sqrt 2 < 2 := by
    nlinarith [Real.sq_sqrt (show (0:ℝ) ≤ 2 by norm_num), Real.sqrt_nonneg 2]
  have hs2n : 0 ≤ Real.sqrt 2 := Real.sqrt_nonneg 2
  have hL : 1000 * Real.pi / 3 * 0.001 * 1.5 = Real.pi / 2 := by ring
  have hR : 1000 * Real.pi / 3 * 0.0015 * 1.5 = Real.pi - Real.pi / 4 := by ring
  unfold createGlowAnimation glowOpacitySpec
  simp only [Option.getD_none]
  rw [hL, hR, Real.sin_pi_div_two, Real.sin_pi_sub, Real.sin_pi_div_four]
  have e1 : (0:ℝ) + (1 * 0.5 + 0.5) = 1 := by norm_num
  rw [e1, min_self]
  have e2 : min 1 ((0:ℝ) + 0.5 * (Real.sqrt 2 / 2) + 0.5) =
      0 + 0.5 * (Real.sqrt 2 / 2) + 0.5 := by
    apply min_eq_right
    nlinarith
  rw [e2]
  intro h
  nlinarith

/-- C6 (amended): the glowing-border opacity at clock time `t` is
`min(1, baseOpacity + glowIntensity * sin(t * 0.001 * glowSpeed) + glowIntensity)`
(coefficient `0.001`, not `0.0015`), both for explicit parameters and for the
defaults `glowIntensity = 0.5`, `glowSpeed = 1.5`. -/
theorem createGlowAnimation_formula (baseOpacity glowIntensity glowSpeed t : ℝ) :
    createGlowAnimation baseOpacity (some glowIntensity) (some glowSpeed) t =
      min 1 (baseOpacity + glowIntensity * Real.sin (t * 0.001 * glowSpeed) + glowIntensity) ∧
    createGlowAnimation baseOpacity none none t =
      min 1 (baseOpacity + 0.5 * Real.sin (t * 0.001 * 1.5) + 0.5) := by
  constructor
  · unfold createGlowAnimation
    simp only [Option.getD_some]
    congr 1
    ring
  · unfold createGlowAnimation
    simp only [Option.getD_none]
    congr 1
    ring

/-- C7: the explosion radius loops (`radius(duration) = radius(0)`) and is
monotonically non-decreasing on `[0, duration)`, for every
`baseRadius ≤ maxRadius` and `duration > 0`. -/
theorem createExplosionAnimation_periodic_mono (baseRadius maxRadius duration : ℝ)
    (hbm : baseRadius ≤ maxRadius) (hd : 0 < duration) :
    createExplosionAnimation baseRadius maxRadius (some duration) duration =
      createExplosionAnimation baseRadius maxRadius (some duration) 0 ∧
    ∀ t1 t2, 0 ≤ t1 → t1 ≤ t2 → t2 < duration →
      createExplosionAnimation baseRadius maxRadius (some duration) t1 ≤
        createExplosionAnimation baseRadius maxRadius (some duration) t2 := by
  constructor
  · unfold createExplosionAnimation
    simp only [Option.getD_some]
    rw [jsMod_self duration hd.ne', jsMod_zero_left]
  · intro t1 t2 ht1 ht12 ht2
    have ht1d : t1 < duration := lt_of_le_of_lt ht12 ht2
    have ht2n : 0 ≤ t2 := le_trans ht1 ht12
    unfold createExplosionAnimation
    simp only [Option.getD_some]
    rw [jsMod_eq_self_of_lt t1 duration ht1 hd ht1d,
      jsMod_eq_self_of_lt t2 duration ht2n hd ht2]
    have hp12 : t1 / duration ≤ t2 / duration := by gcongr
    have hp2 : t2 / duration < 1 := (div_lt_one hd).mpr ht2
    have hcube : (1 - t2 / duration) ^ 3 ≤ (1 - t1 / duration) ^ 3 :=
      pow_le_pow_left₀ (by linarith) (by linarith) 3
    nlinarith [mul_nonneg (sub_nonneg.mpr hbm) (sub_nonneg.mpr hcube)]

/-- C7 witness: concrete instance with `baseRadius = 10000`,
`maxRadius = 50000`, `duration = 2000`. -/
theorem createExplosionAnimation_periodic_mono_witness :
    (10000 : ℝ) ≤ 50000 ∧ (0 : ℝ) < 2000 ∧
    createExplosionAnimation 10000 50000 (some 2000) 2000 =
      createExplosionAnimation 10000 50000 (some 2000) 0 ∧
    createExplosionAnimation 10000 50000 (some 2000) 0 ≤
      createExplosionAnimation 10000 50000 (some 2000) 1000 := by
  refine ⟨by norm_num, by norm_num, ?_, ?_⟩
  · exact (createExplosionAnimation_periodic_mono 10000 50000 2000 (by norm_num)
      (by norm_num)).1
  · exact (createExplosionAnimation_periodic_mono 10000 50000 2000 (by norm_num)
      (by norm_num)).2 0 1000 (by norm_num) (by norm_num) (by norm_num)

/-- C2: the claim states that `addLayer` never propagates a creation failure
as a thrown exception, for every type in the closed enumeration; but for
`explosion` (likewise `glowing_border`, `directional_arrow`, `event_marker`,
`area_highlight`) the switch calls a `LayerGenerators` method that does not
exist, so a `TypeError` is thrown to the caller — contradicting the README
("Explosion Effects (`explosion`)" among the supported effects) and the
repository's own `PlotManagerTest`, which expects this call to return an id. -/
theorem addLayer_explosion_throws :
    addLayer initialPlotManager
      { type := "explosion", data := 0, options := LayerOptions.empty, id := none } 0 =
    ({ layers := [], layerCounter := 1 },
      Except.error ("LayerGenerators.createExplosionLayer is not a function")) := by
  rfl

theorem mapGet_cons (a : String × LayerRecord) (m : List (String × LayerRecord))
    (k : String) :
    mapGet (a :: m) k = if a.1 = k then some a.2 else mapGet m k := by
  by_cases h : a.1 = k <;> simp [mapGet, List.find?_cons, h]

theorem mapSet_cons_ne (a : String × LayerRecord) (m : List (String × LayerRecord))
    (k : String) (v : LayerRecord) (h : ¬ a.1 = k) :
    mapSet (a :: m) k v = a :: mapSet m k v := by
  unfold mapSet
  by_cases hm : m.any (fun p => p.1 = k)
  · rw [if_pos (by simp [List.any_cons, hm]), if_pos hm]
    simp [List.map_cons, h]
  · rw [if_neg (by simp [List.any_cons, h, hm]), if_neg hm]
    simp

theorem mapGet_mapSet_self (m : List (String × LayerRecord)) (k : String)
    (v : LayerRecord) :
    mapGet (mapSet m k v) k = some v := by
  induction m with
  | nil => simp [mapSet, mapGet, List.find?_cons]
  | cons a m ih =>
    by_cases h : a.1 = k
    · have hany : (a :: m).any (fun p => p.1 = k) := by simp [List.any_cons, h]
      unfold mapSet
      rw [if_pos hany]
      rw [List.map_cons, if_pos h, mapGet_cons]
      simp
    · rw [mapSet_cons_ne a m k v h, mapGet_cons, if_neg h]
      exact ih

theorem mapGet_mapMod (m : List (String × LayerRecord)) (k newKey : String)
    (v : LayerRecord) (h : ¬ newKey = k) :
    mapGet (m.map (fun p => if p.1 = k then (k, v) else p)) newKey = mapGet m newKey := by
  induction m with
  | nil => rfl
  | cons a m ih =>
    by_cases ha : a.1 = k
    · rw [List.map_cons, if_pos ha, mapGet_cons, mapGet_cons]
      have h1 : ¬ ((k, v).1 = newKey) := fun hh => h (hh ▸ rfl)
      have h2 : ¬ (a.1 = newKey) := fun hh => h (by rw [← hh, ha])
      rw [if_neg h1, if_neg h2]
      exact ih
    · rw [List.map_cons, if_neg ha, mapGet_cons, mapGet_cons]
      by_cases hak : a.1 = newKey
      · rw [if_pos hak, if_pos hak]
      · rw [if_neg hak, if_neg hak]
        exact ih

theorem mapGet_append_single (m : List (String × LayerRecord)) (k newKey : String)
    (v : LayerRecord) (h : ¬ newKey = k) :
    mapGet (m ++ [(k, v)]) newKey = mapGet m newKey := by
  induction m with
  | nil =>
    simp only [List.nil_append]
    rw [mapGet_cons]
    have hkk : ¬ ((k, v).1 = newKey) := fun hh => h (Eq.symm hh)
    rw [if_neg hkk]
  | cons a m ih =>
    rw [List.cons_append, mapGet_cons, mapGet_cons]
    by_cases ha : a.1 = newKey
    · rw [if_pos ha, if_pos ha]
    · rw [if_neg ha, if_neg ha]
      exact ih

theorem mapGet_mapSet_ne (m : List (String × LayerRecord)) (k newKey : String)
    (v : LayerRecord) (h : ¬ newKey = k) :
    mapGet (mapSet m k v) newKey = mapGet m newKey := by
  unfold mapSet
  by_cases hm : m.any (fun p => p.1 = k)
  · rw [if_pos hm]
    exact mapGet_mapMod m k newKey v h
  · rw [if_neg hm]
    exact mapGet_append_single m k newKey v h

theorem mapGet_mapSet_isSome (m : List (String × LayerRecord)) (k newKey : String)
    (v : LayerRecord) (h : (mapGet m newKey).isSome = true) :
    (mapGet (mapSet m k v) newKey).isSome = true := by
  by_cases hk : newKey = k
  · subst hk
    rw [mapGet_mapSet_self]
    rfl
  · rw [mapGet_mapSet_ne m k newKey v hk]
    exact h

theorem addLayer_preserves_key (s : PlotManager) (instr : EventInstruction) (now : ℤ)
    (k : String) (h : (mapGet s.layers k).isSome = true) :
    (mapGet (addLayer s instr now).1.layers k).isSome = true := by
  unfold addLayer
  dsimp only
  split
  · exact h
  · exact h
  · exact mapGet_mapSet_isSome _ _ _ _ h

theorem batchResultOf_instruction (instr : EventInstruction)
    (r : Except String (Option String)) :
    (batchResultOf instr r).instruction = instr := by
  match r with
  | Except.error e => rfl
  | Except.ok none => rfl
  | Except.ok (some lid) =>
    unfold batchResultOf
    by_cases hl : lid = "" <;> simp [hl]

theorem processEventBatch_cons (s : PlotManager) (instr : EventInstruction)
    (rest : List EventInstruction) (now : ℤ) :
    processEventBatch s (instr :: rest) now =
      ((processEventBatch (addLayer s instr now).1 rest now).1,
        batchResultOf instr (addLayer s instr now).2 ::
          (processEventBatch (addLayer s instr now).1 rest now).2) := rfl

/-- C3: `processEventBatch` returns exactly one result per input instruction,
in input order (mapping each result to its recorded instruction recovers the
input list, so in particular a failing instruction only affects its own
entry), and never removes a layer already present when the batch started: no
rollback of earlier successes. -/
theorem processEventBatch_independent (s : PlotManager) (instrs : List EventInstruction)
    (now : ℤ) :
    (processEventBatch s instrs now).2.map (fun r => r.instruction) = instrs ∧
    ∀ k, (mapGet s.layers k).isSome = true →
      (mapGet (processEventBatch s instrs now).1.layers k).isSome = true := by
  induction instrs generalizing s with
  | nil => exact ⟨rfl, fun _ h => h⟩
  | cons instr rest ih =>
    constructor
    · rw [processEventBatch_cons, List.map_cons, batchResultOf_instruction,
        (ih (addLayer s instr now).1).1]
    · intro k hk
      rw [processEventBatch_cons]
      exact (ih (addLayer s instr now).1).2 k (addLayer_preserves_key s instr now k hk)


theorem addLayer_pulsing_with_id (s : PlotManager) (da : LayerData)
    (op : LayerOptions) (lid : String) (now : ℤ) (hlid : ¬ lid = "") :
    addLayer s ⟨"pulsing_dot", da, op, some lid⟩ now =
      ({ layers := mapSet s.layers lid
          ⟨createPulsingDotLayer lid da op, "pulsing_dot", da, op, now⟩,
         layerCounter := s.layerCounter }, Except.ok (some lid)) := by
  unfold addLayer
  simp [hlid]

theorem addLayer_arc_with_id (s : PlotManager) (da : LayerData)
    (op : LayerOptions) (lid : String) (now : ℤ) (hlid : ¬ lid = "") :
    addLayer s ⟨"animated_arc", da, op, some lid⟩ now =
      ({ layers := mapSet s.layers lid
          ⟨createArcLayer lid da op, "animated_arc", da, op, now⟩,
         layerCounter := s.layerCounter }, Except.ok (some lid)) := by
  unfold addLayer
  simp [hlid]

/-- C3 witness: a two-instruction batch (one throwing, one succeeding) on a
state already holding a layer keeps one result per instruction in order and
does not roll back the pre-existing layer. -/
theorem processEventBatch_independent_witness :
    (mapGet witnessState.layers ("a")).isSome = true ∧
    (processEventBatch witnessState [witnessBadInstr, witnessGoodInstr] 0).2.map
        (fun r => r.instruction) = [witnessBadInstr, witnessGoodInstr] ∧
    (mapGet (processEventBatch witnessState [witnessBadInstr, witnessGoodInstr]
        0).1.layers ("a")).isSome = true ∧
    (processEventBatch witnessState [witnessBadInstr, witnessGoodInstr] 0).2.map
        (fun r => r.success) = [false, true] := by
  refine ⟨rfl, ?_, ?_, rfl⟩
  · exact (processEventBatch_independent witnessState [witnessBadInstr, witnessGoodInstr] 0).1
  · exact (processEventBatch_independent witnessState [witnessBadInstr, witnessGoodInstr]
      0).2 ("a") rfl

/-- C9: for a stored layer whose type has a generator, a successful
`updateLayerOptions` re-stores the record through `addLayer` with
`createdAt = Date.now()` (the creation time is reset to the update time and
the layer object is rebuilt from the merged options), while `updateLayerData`
keeps the stored record — in particular its `createdAt` — replacing only its
data payload. -/
theorem updateLayerOptions_resets_createdAt (s : PlotManager) (layerId : String)
    (info : LayerRecord) (newOptions : LayerOptions) (newData : LayerData) (now : ℤ)
    (hget : mapGet s.layers layerId = some info)
    (hid : ¬ layerId = "")
    (htype : info.type = "pulsing_dot" ∨ info.type = "animated_arc") :
    (∃ s1 newLayer,
      updateLayerOptions s layerId newOptions now = (s1, Except.ok true) ∧
      mapGet s1.layers layerId = some
        { layer := newLayer, type := info.type, data := info.data,
          options := mergeOptions info.options newOptions, createdAt := now }) ∧
    ∃ s2, updateLayerData s layerId newData = (s2, true) ∧
      mapGet s2.layers layerId = some
        { info with data := newData, layer := info.layer.setData newData } := by
  constructor
  · unfold updateLayerOptions
    rw [hget]
    dsimp only
    rcases htype with h | h
    · rw [h, addLayer_pulsing_with_id _ _ _ _ _ hid]
      dsimp only
      exact ⟨_, createPulsingDotLayer layerId info.data
        (mergeOptions info.options newOptions), rfl, by rw [mapGet_mapSet_self]⟩
    · rw [h, addLayer_arc_with_id _ _ _ _ _ hid]
      dsimp only
      exact ⟨_, createArcLayer layerId info.data
        (mergeOptions info.options newOptions), rfl, by rw [mapGet_mapSet_self]⟩
  · unfold updateLayerData
    rw [hget]
    dsimp only
    exact ⟨_, rfl, by rw [mapGet_mapSet_self]⟩

/-- C9 witness: on the concrete state, updating options at clock `99` resets
the stored record's `createdAt` from `5` to `99`, while updating data keeps
the stored record with `createdAt = 5`. -/
theorem updateLayerOptions_resets_createdAt_witness :
    mapGet witnessState.layers ("a") = some witnessRecord ∧
    ¬ ("a" : String) = "" ∧
    witnessRecord.type = "pulsing_dot" ∧
    ((∃ s1 newLayer,
        updateLayerOptions witnessState ("a") LayerOptions.empty 99 = (s1, Except.ok true) ∧
        mapGet s1.layers ("a") = some
          { layer := newLayer, type := witnessRecord.type, data := witnessRecord.data,
            options := mergeOptions witnessRecord.options LayerOptions.empty,
            createdAt := 99 }) ∧
      ∃ s2, updateLayerData witnessState ("a") 8 = (s2, true) ∧
        mapGet s2.layers ("a") = some
          { witnessRecord with data := 8, layer := witnessRecord.layer.setData 8 }) := by
  refine ⟨rfl, by decide, rfl, ?_⟩
  exact updateLayerOptions_resets_createdAt witnessState ("a") witnessRecord
    LayerOptions.empty 8 99 rfl (by decide) (Or.inl rfl)

theorem latLngToVector3_len (lat lng radius : ℝ) (hr : 0 ≤ radius) :
    (latLngToVector3 lat lng radius).len = radius := by
  unfold latLngToVector3 Vec3.len
  dsimp only
  have h1 := Real.sin_sq_add_cos_sq ((90 - lat) * (Real.pi / 180))
  have h2 := Real.sin_sq_add_cos_sq ((lng + 180) * (Real.pi / 180))
  have h : (-(radius * Real.sin ((90 - lat) * (Real.pi / 180)) *
        Real.cos ((lng + 180) * (Real.pi / 180)))) ^ 2 +
      (radius * Real.cos ((90 - lat) * (Real.pi / 180))) ^ 2 +
      (radius * Real.sin ((90 - lat) * (Real.pi / 180)) *
        Real.sin ((lng + 180) * (Real.pi / 180))) ^ 2 = radius ^ 2 := by
    linear_combination radius ^ 2 * Real.sin ((90 - lat) * (Real.pi / 180)) ^ 2 * h2 +
      radius ^ 2 * h1
  rw [h, Real.sqrt_sq hr]

theorem bezier_degenerate_core (v : Vec3) (h t : ℝ) (hv : v.len = 5) :
    QuadraticBezierCurve3.getPoint
      ⟨v, Vec3.scale (5 + h) (Vec3.scale 0.5 (v.add v)).normalize, v⟩ t =
      Vec3.scale (1 + 2 * t * (1 - t) * h / 5) v := by
  obtain ⟨x, y, z⟩ := v
  have hmid : Vec3.scale 0.5 (Vec3.add ⟨x, y, z⟩ ⟨x, y, z⟩) = (⟨x, y, z⟩ : Vec3) := by
    unfold Vec3.scale Vec3.add
    simp only [Vec3.mk.injEq]
    refine ⟨by ring, by ring, by ring⟩
  rw [hmid]
  unfold Vec3.normalize
  rw [hv, if_neg (by norm_num)]
  unfold QuadraticBezierCurve3.getPoint Vec3.scale Vec3.add
  dsimp only
  simp only [Vec3.mk.injEq]
  refine ⟨by ring, by ring, by ring⟩

/-- C8 (amended): for identical endpoints no exception is raised and sampling
the curve at parameter `t` yields the radial scaling
`(1 + 2·t·(1-t)·arcHeight/5)` of the Cartesian projection of the point: the
endpoints (`t = 0`, `t = 1`) equal the projection, and the curve collapses to
that single point for all parameters exactly when `arcHeight = 0`; for
`arcHeight ≠ 0` interior samples are radially lifted, not constant. -/
theorem createArcCurve_degenerate (a : LatLng) (h t : ℝ) :
    (createArcCurve a a h).getPoint t =
      Vec3.scale (1 + 2 * t * (1 - t) * h / 5)
        (latLngToVector3 a.lat a.lng GLOBE_RADIUS) ∧
    (createArcCurve a a 0).getPoint t = latLngToVector3 a.lat a.lng GLOBE_RADIUS ∧
    (createArcCurve a a h).getPoint 0 = latLngToVector3 a.lat a.lng GLOBE_RADIUS ∧
    (createArcCurve a a h).getPoint 1 = latLngToVector3 a.lat a.lng GLOBE_RADIUS := by
  have hlen : (latLngToVector3 a.lat a.lng GLOBE_RADIUS).len = 5 := by
    rw [latLngToVector3_len a.lat a.lng GLOBE_RADIUS (by norm_num [GLOBE_RADIUS])]
    norm_num [GLOBE_RADIUS]
  have key : ∀ hh tt : ℝ, (createArcCurve a a hh).getPoint tt =
      Vec3.scale (1 + 2 * tt * (1 - tt) * hh / 5)
        (latLngToVector3 a.lat a.lng GLOBE_RADIUS) := by
    intro hh tt
    unfold createArcCurve
    dsimp only
    rw [show GLOBE_RADIUS + hh = 5 + hh by norm_num [GLOBE_RADIUS]]
    exact bezier_degenerate_core _ hh tt hlen
  refine ⟨key h t, ?_, ?_, ?_⟩
  · rw [key 0 t]
    obtain ⟨x, y, z⟩ := latLngToVector3 a.lat a.lng GLOBE_RADIUS
    unfold Vec3.scale
    simp only [Vec3.mk.injEq]
    refine ⟨by ring, by ring, by ring⟩
  · rw [key h 0]
    obtain ⟨x, y, z⟩ := latLngToVector3 a.lat a.lng GLOBE_RADIUS
    unfold Vec3.scale
    simp only [Vec3.mk.injEq]
    refine ⟨by ring, by ring, by ring⟩
  · rw [key h 1]
    obtain ⟨x, y, z⟩ := latLngToVector3 a.lat a.lng GLOBE_RADIUS
    unfold Vec3.scale
    simp only [Vec3.mk.injEq]
    refine ⟨by ring, by ring, by ring⟩

/-- C8: the claim states the degenerate curve collapses to the single point
`latLngToVector3(a)` at every parameter; at `a = (0,0)`, `arcHeight = 2`,
parameter `1/2`, the sample is `(6,0,0)` while the projection is `(5,0,0)`. -/
theorem createArcCurve_degenerate_counterexample :
    (createArcCurve ⟨0, 0⟩ ⟨0, 0⟩ 2).getPoint (1/2) ≠
      latLngToVector3 0 0 GLOBE_RADIUS := by
  have hv : latLngToVector3 0 0 GLOBE_RADIUS = ⟨5, 0, 0⟩ := by
    unfold latLngToVector3 GLOBE_RADIUS
    dsimp only
    have hphi : (90 - (0:ℝ)) * (Real.pi / 180) = Real.pi / 2 := by ring
    have hth : ((0:ℝ) + 180) * (Real.pi / 180) = Real.pi := by ring
    rw [hphi, hth, Real.sin_pi_div_two, Real.cos_pi_div_two, Real.sin_pi, Real.cos_pi]
    simp only [Vec3.mk.injEq]
    refine ⟨by ring, by ring, by ring⟩
  have hmain := (createArcCurve_degenerate ⟨0, 0⟩ 2 (1/2)).1
  dsimp only at hmain
  rw [hmain, hv]
  unfold Vec3.scale
  simp only [Vec3.mk.injEq, ne_eq, not_and]
  intro hx
  norm_num at hx

theorem scale_normalize (v : Vec3) (r : ℝ) (hv : v.len = r) (hr : r ≠ 0) :
    Vec3.scale r v.normalize = v := by
  obtain ⟨x, y, z⟩ := v
  unfold Vec3.normalize Vec3.scale
  rw [hv, if_neg hr]
  dsimp only
  simp only [Vec3.mk.injEq]
  refine ⟨?_, ?_, ?_⟩ <;> field_simp

theorem atan2_pos_mul (s θ : ℝ) (hs : 0 < s) (hθ : θ ∈ Set.Ioc (-Real.pi) Real.pi) :
    atan2 (s * Real.sin θ) (s * Real.cos θ) = θ := by
  unfold atan2
  have hc : (⟨s * Real.cos θ, s * Real.sin θ⟩ : ℂ) =
      (s : ℂ) * ((Real.cos θ : ℂ) + (Real.sin θ : ℂ) * Complex.I) := by
    rw [Complex.mk_eq_add_mul_I]
    push_cast
    ring
  rw [hc, Complex.ofReal_cos, Complex.ofReal_sin]
  exact Complex.arg_mul_cos_add_sin_mul_I hs hθ

/-- C1 (amended): for `r > 0` and a non-polar latitude, the round trip
recovers the latitude exactly; the longitude is recovered exactly on
`[-180, 0]`, while on `(0, 180]` the code returns `lng - 360` (the same
meridian, but numerically off by 360°, far outside the claimed `1e-6`
tolerance). -/
theorem vector3ToLatLng_roundtrip (lat lng radius : ℝ)
    (hr : 0 < radius) (hlat1 : -90 < lat) (hlat2 : lat < 90)
    (hlng1 : -180 ≤ lng) (hlng2 : lng ≤ 180) :
    (vector3ToLatLng (latLngToVector3 lat lng radius) radius).lat = lat ∧
    (lng ≤ 0 → (vector3ToLatLng (latLngToVector3 lat lng radius) radius).lng = lng) ∧
    (0 < lng →
      (vector3ToLatLng (latLngToVector3 lat lng radius) radius).lng = lng - 360) := by
  have hpi := Real.pi_pos
  have hpne := Real.pi_ne_zero
  have hlen := latLngToVector3_len lat lng radius hr.le
  have hscale := scale_normalize (latLngToVector3 lat lng radius) radius hlen hr.ne'
  have hy : (latLngToVector3 lat lng radius).y =
      radius * Real.cos ((90 - lat) * (Real.pi / 180)) := rfl
  have hx : (latLngToVector3 lat lng radius).x =
      -(radius * Real.sin ((90 - lat) * (Real.pi / 180)) *
        Real.cos ((lng + 180) * (Real.pi / 180))) := rfl
  have hz : (latLngToVector3 lat lng radius).z =
      radius * Real.sin ((90 - lat) * (Real.pi / 180)) *
        Real.sin ((lng + 180) * (Real.pi / 180)) := rfl
  have hphi1 : 0 ≤ (90 - lat) * (Real.pi / 180) :=
    mul_nonneg (by linarith) (by positivity)
  have hphi2 : (90 - lat) * (Real.pi / 180) ≤ Real.pi := by
    calc (90 - lat) * (Real.pi / 180) ≤ 180 * (Real.pi / 180) :=
          mul_le_mul_of_nonneg_right (by linarith) (by positivity)
      _ = Real.pi := by field_simp
  have hsinphi : 0 < Real.sin ((90 - lat) * (Real.pi / 180)) := by
    apply Real.sin_pos_of_pos_of_lt_pi
    · exact mul_pos (by linarith) (by positivity)
    · calc (90 - lat) * (Real.pi / 180) < 180 * (Real.pi / 180) :=
            mul_lt_mul_of_pos_right (by linarith) (by positivity)
        _ = Real.pi := by field_simp
  have hs : 0 < radius * Real.sin ((90 - lat) * (Real.pi / 180)) := mul_pos hr hsinphi
  unfold vector3ToLatLng
  dsimp only
  rw [hscale]
  refine ⟨?_, ?_, ?_⟩
  · rw [hy, mul_div_cancel_left₀ _ hr.ne', Real.arccos_cos hphi1 hphi2]
    field_simp
  · intro hlng0
    have hθmem : ((lng + 180) * (Real.pi / 180)) ∈ Set.Ioc (-Real.pi) Real.pi := by
      constructor
      · have h0 : 0 ≤ (lng + 180) * (Real.pi / 180) :=
          mul_nonneg (by linarith) (by positivity)
        linarith
      · calc (lng + 180) * (Real.pi / 180) ≤ 180 * (Real.pi / 180) :=
              mul_le_mul_of_nonneg_right (by linarith) (by positivity)
          _ = Real.pi := by field_simp
    rw [hz, hx, neg_neg,
      atan2_pos_mul (radius * Real.sin ((90 - lat) * (Real.pi / 180)))
        ((lng + 180) * (Real.pi / 180)) hs hθmem]
    field_simp
  · intro hlngpos
    have hθ2mem : ((lng + 180) * (Real.pi / 180) - 2 * Real.pi) ∈
        Set.Ioc (-Real.pi) Real.pi := by
      constructor
      · have hgt : Real.pi < (lng + 180) * (Real.pi / 180) := by
          calc Real.pi = 180 * (Real.pi / 180) := by field_simp
            _ < (lng + 180) * (Real.pi / 180) :=
                mul_lt_mul_of_pos_right (by linarith) (by positivity)
        linarith
      · have hle : (lng + 180) * (Real.pi / 180) ≤ 2 * Real.pi := by
          calc (lng + 180) * (Real.pi / 180) ≤ 360 * (Real.pi / 180) :=
                mul_le_mul_of_nonneg_right (by linarith) (by positivity)
            _ = 2 * Real.pi := by field_simp; ring
        linarith
    rw [hz, hx, neg_neg,
      ← Real.sin_sub_two_pi ((lng + 180) * (Real.pi / 180)),
      ← Real.cos_sub_two_pi ((lng + 180) * (Real.pi / 180)),
      atan2_pos_mul (radius * Real.sin ((90 - lat) * (Real.pi / 180)))
        ((lng + 180) * (Real.pi / 180) - 2 * Real.pi) hs hθ2mem]
    field_simp
    ring

/-- C1 witness for the amended round trip, at `p = (0°, -90°)`, `r = 1`. -/
theorem vector3ToLatLng_roundtrip_witness :
    (0 : ℝ) < 1 ∧ (-90 : ℝ) < 0 ∧ (0 : ℝ) < 90 ∧ (-180 : ℝ) ≤ -90 ∧ (-90 : ℝ) ≤ 180 ∧
    (vector3ToLatLng (latLngToVector3 0 (-90) 1) 1).lat = 0 ∧
    (vector3ToLatLng (latLngToVector3 0 (-90) 1) 1).lng = -90 := by
  refine ⟨by norm_num, by norm_num, by norm_num, by norm_num, by norm_num, ?_, ?_⟩
  · exact (vector3ToLatLng_roundtrip 0 (-90) 1 (by norm_num) (by norm_num) (by norm_num)
      (by norm_num) (by norm_num)).1
  · exact (vector3ToLatLng_roundtrip 0 (-90) 1 (by norm_num) (by norm_num) (by norm_num)
      (by norm_num) (by norm_num)).2.1 (by norm_num)

/-- C1: the claim asserts the round trip recovers the longitude within `1e-6`
degrees for every longitude in `[-180, 180]`; at `p = (0°, 90°)`, `r = 1`, the
recovered longitude is `-270`, which is `360` degrees away from `90`. -/
theorem vector3ToLatLng_roundtrip_counterexample :
    (vector3ToLatLng (latLngToVector3 0 90 1) 1).lng = -270 ∧
    ¬ |(-270 : ℝ) - 90| ≤ 1e-6 := by
  constructor
  · have hv : latLngToVector3 0 90 1 = ⟨0, 0, -1⟩ := by
      unfold latLngToVector3
      dsimp only
      rw [show (90 - (0:ℝ)) * (Real.pi / 180) = Real.pi / 2 by ring,
        show ((90:ℝ) + 180) * (Real.pi / 180) = Real.pi / 2 + Real.pi by ring,
        Real.sin_add_pi, Real.cos_add_pi, Real.sin_pi_div_two, Real.cos_pi_div_two]
      simp only [Vec3.mk.injEq]
      refine ⟨by ring, by ring, by ring⟩
    have hn : Vec3.scale 1 (Vec3.normalize ⟨0, 0, -1⟩) = (⟨0, 0, -1⟩ : Vec3) := by
      apply scale_normalize
      · unfold Vec3.len
        dsimp only
        rw [show (0:ℝ)^2 + (0:ℝ)^2 + (-1:ℝ)^2 = 1 by norm_num, Real.sqrt_one]
      · norm_num
    unfold vector3ToLatLng
    dsimp only
    rw [hv, hn]
    have harg : atan2 (-1) (-(0:ℝ)) = -(Real.pi / 2) := by
      unfold atan2
      have hni : (⟨-(0:ℝ), (-1:ℝ)⟩ : ℂ) = -Complex.I := by
        apply Complex.ext <;> simp
      rw [hni, Complex.arg_neg_I]
    show atan2 (-1) (-(0:ℝ)) * 180 / Real.pi - 180 = -270
    rw [harg]
    have hpne := Real.pi_ne_zero
    field_simp
    ring
  · norm_num

/-- C4: the claim says `getIntermediatePoints` guards the degenerate case
`sin(d) = 0` and falls back to repeating `start`; the source has no guard — at
`start = end = (0,0)` (valid coordinates) with `n = 1` the angular distance is
`0`, both slerp weights evaluate `0/0`, and every coordinate of both returned
points is NaN (modelled `none`) instead of the start point.  The result still
has `n + 1` entries. -/
theorem getIntermediatePoints_degenerate_nan :
    getIntermediatePoints ⟨0, 0⟩ ⟨0, 0⟩ 1 =
      Except.ok [⟨none, none⟩, ⟨none, none⟩] ∧
    Except.ok [⟨some 0, some 0⟩, ⟨some 0, some 0⟩] ≠
      getIntermediatePoints ⟨0, 0⟩ ⟨0, 0⟩ 1 := by
  have hcond : ¬ (¬ isValidCoordinate (0:ℝ) 0 ∨ ¬ isValidCoordinate (0:ℝ) 0) := by
    norm_num [isValidCoordinate]
  have hmain : getIntermediatePoints ⟨0, 0⟩ ⟨0, 0⟩ 1 =
      Except.ok [⟨none, none⟩, ⟨none, none⟩] := by
    unfold getIntermediatePoints
    dsimp only
    rw [if_neg hcond]
    norm_num [List.range_succ, jsDiv, Real.sin_zero, Real.arcsin_zero, Real.sqrt_zero,
      Option.bind]
  refine ⟨hmain, ?_⟩
  rw [hmain]
  simp

theorem digitChar_inj_of_lt : ∀ a < 10, ∀ b < 10, Nat.digitChar a = Nat.digitChar b → a = b := by
  decide

theorem digitChar_ne_dash : ∀ d < 10, ¬ Nat.digitChar d = '-' := by
  decide

theorem map_digitChar_inj : ∀ (l1 l2 : List ℕ), (∀ d ∈ l1, d < 10) → (∀ d ∈ l2, d < 10) →
    l1.map Nat.digitChar = l2.map Nat.digitChar → l1 = l2 := by
  intro l1
  induction l1 with
  | nil =>
    intro l2 _ _ h
    cases l2 with
    | nil => rfl
    | cons b t => simp at h
  | cons a t ih =>
    intro l2 h1 h2 h
    cases l2 with
    | nil => simp at h
    | cons b t2 =>
      simp only [List.map_cons, List.cons.injEq] at h
      have ha : a < 10 := h1 a (List.mem_cons_self a t)
      have hb : b < 10 := h2 b (List.mem_cons_self b t2)
      have hab := digitChar_inj_of_lt a ha b hb h.1
      have ht := ih t2 (fun d hd => h1 d (List.mem_cons_of_mem a hd))
        (fun d hd => h2 d (List.mem_cons_of_mem b hd)) h.2
      rw [hab, ht]

theorem digits_inj (m n : ℕ) (h : Nat.digits 10 m = Nat.digits 10 n) : m = n := by
  have h2 := congrArg (Nat.ofDigits 10) h
  rwa [Nat.ofDigits_digits, Nat.ofDigits_digits] at h2

theorem natToString_inj (m n : ℕ) (h : natToString m = natToString n) : m = n := by
  unfold natToString at h
  by_cases hm : m = 0 <;> by_cases hn : n = 0
  · rw [hm, hn]
  · exfalso
    rw [if_pos hm, if_neg hn] at h
    have hd := congrArg String.data h
    simp only at hd
    have hrev : List.map Nat.digitChar (Nat.digits 10 n) = ['0'] := by
      have := congrArg List.reverse hd
      simpa using this.symm
    have hsing : Nat.digits 10 n = [0] := by
      have h0 : ([0] : List ℕ).map Nat.digitChar = ['0'] := by decide
      exact map_digitChar_inj (Nat.digits 10 n) [0]
        (fun d hd => Nat.digits_lt_base (by norm_num) hd)
        (by intro d hd; simp at hd; omega) (by rw [hrev, h0])
    have : n = 0 := by
      have := congrArg (Nat.ofDigits 10) hsing
      rwa [Nat.ofDigits_digits] at this
    exact hn this
  · exfalso
    rw [if_neg hm, if_pos hn] at h
    have hd := congrArg String.data h
    simp only at hd
    have hrev : List.map Nat.digitChar (Nat.digits 10 m) = ['0'] := by
      have := congrArg List.reverse hd
      simpa using this
    have hsing : Nat.digits 10 m = [0] := by
      have h0 : ([0] : List ℕ).map Nat.digitChar = ['0'] := by decide
      exact map_digitChar_inj (Nat.digits 10 m) [0]
        (fun d hd => Nat.digits_lt_base (by norm_num) hd)
        (by intro d hd; simp at hd; omega) (by rw [hrev, h0])
    have : m = 0 := by
      have := congrArg (Nat.ofDigits 10) hsing
      rwa [Nat.ofDigits_digits] at this
    exact hm this
  · rw [if_neg hm, if_neg hn] at h
    have hd := congrArg String.data h
    simp only at hd
    have hmap := List.reverse_injective hd
    exact digits_inj m n (map_digitChar_inj _ _
      (fun d hdm => Nat.digits_lt_base (by norm_num) hdm)
      (fun d hdn => Nat.digits_lt_base (by norm_num) hdn) hmap)

theorem natToString_no_dash (n : ℕ) : ∀ c ∈ (natToString n).data, ¬ c = '-' := by
  unfold natToString
  by_cases hn : n = 0
  · rw [if_pos hn]
    intro c hc
    have hc0 : c = '0' := by simpa using hc
    rw [hc0]
    decide
  · rw [if_neg hn]
    intro c hc
    have hc2 : c ∈ List.map Nat.digitChar (Nat.digits 10 n) := by
      simpa [List.mem_reverse] using hc
    obtain ⟨d, hdmem, hdc⟩ := List.mem_map.mp hc2
    rw [← hdc]
    exact digitChar_ne_dash d (Nat.digits_lt_base (by norm_num) hdmem)

theorem dash_split_inj : ∀ (l1 l2 x y : List Char), (∀ c ∈ x, ¬ c = '-') →
    (∀ c ∈ y, ¬ c = '-') → l1 ++ '-' :: x = l2 ++ '-' :: y → x = y := by
  intro l1
  induction l1 with
  | nil =>
    intro l2 x y hx hy h
    cases l2 with
    | nil =>
      simpa using h
    | cons b t =>
      simp only [List.nil_append, List.cons_append, List.cons.injEq] at h
      exfalso
      have hmem : '-' ∈ x := by
        rw [h.2]
        exact List.mem_append_right t (List.mem_cons_self _ _)
      exact hx '-' hmem rfl
  | cons a t ih =>
    intro l2 x y hx hy h
    cases l2 with
    | nil =>
      simp only [List.nil_append, List.cons_append, List.cons.injEq] at h
      exfalso
      have hmem : '-' ∈ y := by
        rw [← h.2]
        exact List.mem_append_right t (List.mem_cons_self _ _)
      exact hy '-' hmem rfl
    | cons b t2 =>
      simp only [List.cons_append, List.cons.injEq] at h
      exact ih t2 x y hx hy h.2

theorem generateLayerId_counter_inj (t1 t2 : String) (c1 c2 : ℕ)
    (h : generateLayerId t1 c1 = generateLayerId t2 c2) : c1 = c2 := by
  unfold generateLayerId at h
  have hd := congrArg String.data h
  rw [String.data_append, String.data_append, String.data_append, String.data_append] at hd
  have hd2 : t1.data ++ '-' :: (natToString c1).data =
      t2.data ++ '-' :: (natToString c2).data := by
    simpa [List.append_assoc] using hd
  have hdata := dash_split_inj t1.data t2.data (natToString c1).data (natToString c2).data
    (natToString_no_dash c1) (natToString_no_dash c2) hd2
  exact natToString_inj c1 c2 (String.ext hdata)

theorem genAsc_le : ∀ (ids : List String) (lo hi : ℕ), GenAsc lo ids hi → lo ≤ hi := by
  intro ids
  induction ids with
  | nil => intro lo hi h; exact h
  | cons id rest ih =>
    intro lo hi h
    obtain ⟨t, c, _, hlt, hrest⟩ := h
    exact le_trans (le_of_lt hlt) (ih c hi hrest)

theorem genAsc_mem : ∀ (ids : List String) (lo hi : ℕ), GenAsc lo ids hi →
    ∀ id ∈ ids, ∃ t c, id = generateLayerId t c ∧ lo < c ∧ c ≤ hi := by
  intro ids
  induction ids with
  | nil => intro lo hi _ id hm; simp at hm
  | cons hd rest ih =>
    intro lo hi h id hm
    obtain ⟨t, c, heq, hlt, hrest⟩ := h
    rcases List.mem_cons.mp hm with hh | hh
    · exact ⟨t, c, hh ▸ heq, hlt, genAsc_le rest c hi hrest⟩
    · obtain ⟨t2, c2, heq2, hlt2, hle2⟩ := ih c hi hrest id hh
      exact ⟨t2, c2, heq2, lt_trans hlt hlt2, hle2⟩

theorem genAsc_mono_hi : ∀ (ids : List String) (lo hi hi2 : ℕ), GenAsc lo ids hi →
    hi ≤ hi2 → GenAsc lo ids hi2 := by
  intro ids
  induction ids with
  | nil => intro lo hi hi2 h hle; exact le_trans h hle
  | cons hd rest ih =>
    intro lo hi hi2 h hle
    obtain ⟨t, c, heq, hlt, hrest⟩ := h
    exact ⟨t, c, heq, hlt, ih c hi hi2 hrest hle⟩

theorem genAsc_append : ∀ (l1 l2 : List String) (lo mid hi : ℕ), GenAsc lo l1 mid →
    GenAsc mid l2 hi → GenAsc lo (l1 ++ l2) hi := by
  intro l1
  induction l1 with
  | nil =>
    intro l2 lo mid hi h1 h2
    rw [List.nil_append]
    cases l2 with
    | nil => exact le_trans h1 h2
    | cons hd rest =>
      obtain ⟨t, c, heq, hlt, hrest⟩ := h2
      exact ⟨t, c, heq, lt_of_le_of_lt h1 hlt, hrest⟩
  | cons hd rest ih =>
    intro l2 lo mid hi h1 h2
    obtain ⟨t, c, heq, hlt, hrest⟩ := h1
    exact ⟨t, c, heq, hlt, ih l2 c mid hi hrest h2⟩

theorem genAsc_nodup : ∀ (ids : List String) (lo hi : ℕ), GenAsc lo ids hi →
    ids.Nodup := by
  intro ids
  induction ids with
  | nil => intro lo hi _; exact List.nodup_nil
  | cons hd rest ih =>
    intro lo hi h
    obtain ⟨t, c, heq, hlt, hrest⟩ := h
    refine List.nodup_cons.mpr ⟨?_, ih c hi hrest⟩
    intro hmem
    obtain ⟨t2, c2, heq2, hlt2, _⟩ := genAsc_mem rest c hi hrest hd hmem
    have : c = c2 := generateLayerId_counter_inj t t2 c c2 (by rw [← heq, ← heq2])
    omega

theorem addLayer_counter_gen (s : PlotManager) (instr : EventInstruction) (now : ℤ)
    (h : instr.id = none ∨ instr.id = some "") :
    (addLayer s instr now).1.layerCounter = s.layerCounter + 1 := by
  unfold addLayer
  rcases h with h | h <;> rw [h] <;> dsimp only <;> split <;> rfl

theorem addLayer_counter_keep (s : PlotManager) (instr : EventInstruction) (now : ℤ)
    (lid : String) (hid : instr.id = some lid) (hl : ¬ lid = "") :
    (addLayer s instr now).1.layerCounter = s.layerCounter := by
  unfold addLayer
  rw [hid]
  dsimp only
  simp only [hl, decide_eq_true_eq, if_false, decide_eq_false_iff_not]
  split <;> rfl

theorem addLayer_genAsc (s : PlotManager) (instr : EventInstruction) (now : ℤ) :
    GenAsc s.layerCounter (addLayerGenerated s instr)
      (addLayer s instr now).1.layerCounter := by
  rcases hid : instr.id with _ | lid
  · unfold addLayerGenerated
    rw [hid]
    dsimp only
    rw [addLayer_counter_gen s instr now (Or.inl hid)]
    exact ⟨instr.type, s.layerCounter + 1, rfl, Nat.lt_succ_self _, Nat.le_refl _⟩
  · unfold addLayerGenerated
    rw [hid]
    dsimp only
    by_cases hl : lid = ""
    · rw [if_pos hl, addLayer_counter_gen s instr now (Or.inr (by rw [hid, hl]))]
      exact ⟨instr.type, s.layerCounter + 1, rfl, Nat.lt_succ_self _, Nat.le_refl _⟩
    · rw [if_neg hl, addLayer_counter_keep s instr now lid hid hl]
      exact Nat.le_refl _

theorem batch_genAsc : ∀ (instrs : List EventInstruction) (s : PlotManager) (now : ℤ),
    GenAsc s.layerCounter (batchGenerated s instrs now)
      (processEventBatch s instrs now).1.layerCounter := by
  intro instrs
  induction instrs with
  | nil => intro s now; exact Nat.le_refl _
  | cons instr rest ih =>
    intro s now
    rw [show batchGenerated s (instr :: rest) now =
      addLayerGenerated s instr ++ batchGenerated (addLayer s instr now).1 rest now from rfl]
    rw [processEventBatch_cons]
    exact genAsc_append _ _ _ _ _ (addLayer_genAsc s instr now)
      (ih (addLayer s instr now).1 now)

theorem updateLayerData_counter (s : PlotManager) (lid : String) (d : LayerData) :
    (updateLayerData s lid d).1.layerCounter = s.layerCounter := by
  unfold updateLayerData
  rcases h : mapGet s.layers lid with _ | info <;> rfl

theorem stepOp_genAsc (s : PlotManager) (op : PMOp) :
    GenAsc s.layerCounter (stepOp s op).2 (stepOp s op).1.layerCounter := by
  cases op with
  | add instr now => exact addLayer_genAsc s instr now
  | remove lid => exact Nat.le_refl _
  | removeByType t => exact Nat.le_refl _
  | clearAll => exact Nat.le_refl _
  | updData lid d =>
    show GenAsc s.layerCounter [] (updateLayerData s lid d).1.layerCounter
    rw [updateLayerData_counter]
    exact Nat.le_refl _
  | updOptions lid newOptions now =>
    dsimp only [stepOp]
    unfold updateLayerOptions
    rcases h : mapGet s.layers lid with _ | info
    · exact Nat.le_refl _
    · have hres := addLayer_genAsc { s with layers := mapSet s.layers lid { info with options := mergeOptions info.options newOptions } } { type := info.type, data := info.data, options := mergeOptions info.options newOptions, id := some lid } now
      exact hres
  | batch instrs now => exact batch_genAsc instrs s now

theorem runOps_cons (s : PlotManager) (op : PMOp) (rest : List PMOp) :
    runOps s (op :: rest) =
      ((runOps (stepOp s op).1 rest).1,
        (stepOp s op).2 ++ (runOps (stepOp s op).1 rest).2) := rfl

theorem runOps_genAsc : ∀ (ops : List PMOp) (s : PlotManager),
    GenAsc s.layerCounter (runOps s ops).2 (runOps s ops).1.layerCounter := by
  intro ops
  induction ops with
  | nil => intro s; exact Nat.le_refl _
  | cons op rest ih =>
    intro s
    rw [runOps_cons]
    exact genAsc_append _ _ _ _ _ (stepOp_genAsc s op) (ih (stepOp s op).1)

/-- C10: over any sequence of `PlotManager` operations starting from a fresh
manager, the auto-generated layer ids (of the form `type-counter`, from the
single pre-incremented counter that no remove/clear operation resets) are
pairwise distinct: every generated id differs from every id generated before
it. -/
theorem generated_ids_nodup (ops : List PMOp) :
    ((runOps initialPlotManager ops).2).Nodup :=
  genAsc_nodup _ _ _ (runOps_genAsc ops initialPlotManager)
